import Mathlib

/-!
# Verification of the apirouter request-dispatch framework

Shallow embedding, in Lean 4, of the parts of `KarpelesLab/apirouter`
(package `apirouter`) relevant to the request lifecycle: decoded Go
values, the error model (`errors.go`), the per-request `Context` and its
constructors and HTTP parameter parsing (`context.go`), the dispatcher
(`Call`), the response envelope (`errorResponse`, `getResponseData`),
the OPTIONS responder (`http.go`), and the websocket broadcast delivery
loop (`websocket.go`).

Go maps and slices appearing inside decoded values are modelled by the
mutual inductives below (association lists with Go lookup semantics);
machine integers are modelled by `Int`/`Nat` (none of the embedded code
overflows); Go `float64` response times are modelled by `Rat`.
-/

namespace ApiRouter

/-- Model of a Go `any` value as it occurs in decoded parameter maps and
in response envelopes.  `vfloat lit` is a `float64` produced by JSON
decoding of the numeric literal `lit` without `UseNumber`; `vnumber lit`
is a `json.Number` (string-backed) produced with `UseNumber`; the two
have different dynamic types in Go and are therefore distinct
constructors.  `vint` covers Go `int` fields (status codes), `vrat` the
`float64` elapsed-time field, `vbytes` a `[]byte` (file payloads). -/
inductive GoVal where
  | vnull : GoVal
  | vbool (b : Bool) : GoVal
  | vstr (s : String) : GoVal
  | vfloat (lit : String) : GoVal
  | vnumber (lit : String) : GoVal
  | vint (n : Int) : GoVal
  | vrat (q : Rat) : GoVal
  | vbytes (s : String) : GoVal
  | varr (xs : List GoVal) : GoVal
  | vmap (fs : List (String × GoVal)) : GoVal

/-- Go `map[string]any`, as an association list: first binding wins on
lookup, later `m[k] = v` assignments replace the binding.  The empty
list doubles as Go's `nil` map (lookups on a nil map yield the zero
value). -/
abbrev GoFields := List (String × GoVal)

def GoFields.nil : GoFields := []

/-- Go map indexing `m[k]` (the `v, ok :=` form): `some v` when present. -/
def GoFields.lookup (fs : GoFields) (k : String) : Option GoVal :=
  match fs with
  | [] => none
  | (key, v) :: tl => if key = k then some v else GoFields.lookup tl k

/-- Go `_, ok := m[k]` presence test. -/
def GoFields.hasKey (fs : GoFields) (k : String) : Bool :=
  (fs.lookup k).isSome

/-- Go map assignment `m[k] = v` (replace or append). -/
def GoFields.set (fs : GoFields) (k : String) (v : GoVal) : GoFields :=
  match fs with
  | [] => [(k, v)]
  | (key, w) :: tl =>
      if key = k then (key, v) :: tl else (key, w) :: GoFields.set tl k v

/-- The keys of a Go map, in binding order. -/
def GoFields.keys (fs : GoFields) : List String :=
  fs.map Prod.fst

end ApiRouter

namespace ApiRouter

/-- JSON document AST.  The texts handled by the router are decoded by
the external `pjson` library; a document is modelled syntactically so
that the two decoding modes used in `context.go` (with and without
`UseNumber`) can be distinguished.  Numeric literals are kept verbatim
in `jnum`. -/
inductive Jdoc where
  | jnull : Jdoc
  | jbool (b : Bool) : Jdoc
  | jstr (s : String) : Jdoc
  | jnum (lit : String) : Jdoc
  | jarr (xs : List Jdoc) : Jdoc
  | jobj (fs : List (String × Jdoc)) : Jdoc

mutual

/-- Decoding a JSON document into a Go `any`, as `pjson` does when the
target is `any`/`map[string]any`: objects become maps, arrays slices,
strings strings, and numbers become `json.Number` when the decoder has
`UseNumber` set (`dec.UseNumber()` in `context.go` SetHttp's JSON body
branch) and `float64` otherwise (`pjson.Unmarshal`, used for `_`
fields). -/
def decodeJ (useNumber : Bool) : Jdoc → GoVal
  | .jnull => .vnull
  | .jbool b => .vbool b
  | .jstr s => .vstr s
  | .jnum lit => if useNumber then .vnumber lit else .vfloat lit
  | .jarr xs => .varr (decodeJList useNumber xs)
  | .jobj fs => .vmap (decodeJFields useNumber fs)

/-- Decoding of a JSON array body. -/
def decodeJList (useNumber : Bool) : List Jdoc → List GoVal
  | [] => []
  | d :: tl => decodeJ useNumber d :: decodeJList useNumber tl

/-- Decoding of a JSON object body, preserving field order. -/
def decodeJFields (useNumber : Bool) : List (String × Jdoc) → List (String × GoVal)
  | [] => []
  | (k, d) :: tl => (k, decodeJ useNumber d) :: decodeJFields useNumber tl

end

mutual

/-- Forgetting the `UseNumber` distinction: replaces every `json.Number`
by the `float64` that decoding the same literal without `UseNumber`
produces.  Used to relate the two parameter-decoding paths. -/
def numToFloat : GoVal → GoVal
  | .vnumber lit => .vfloat lit
  | .varr xs => .varr (numToFloatList xs)
  | .vmap fs => .vmap (numToFloatFields fs)
  | v => v

def numToFloatList : List GoVal → List GoVal
  | [] => []
  | v :: tl => numToFloat v :: numToFloatList tl

def numToFloatFields : List (String × GoVal) → List (String × GoVal)
  | [] => []
  | (k, v) :: tl => (k, numToFloat v) :: numToFloatFields tl

end

/-- Decoding a JSON value into a Go `map[string]any` target
(`Decode(&c.params)` / `Unmarshal(.., &c.params)`): succeeds exactly
when the document is an object. -/
def asMap : GoVal → Except String GoFields
  | .vmap fs => .ok (fs : GoFields)
  | _ => .error "json: cannot unmarshal value into Go value of type map"

end ApiRouter

namespace ApiRouter

/-- Model of the Go `error` values flowing through the router.
`apiError` is the package's `*apirouter.Error` (message, HTTP status
code, stable token, optional structured info, optional wrapped parent);
`redirect` is `*webutil.Redirect`; `httpError` is `webutil.HttpError`
(an HTTP status code as error); `wrapped` is `fmt.Errorf("...%w", e)`;
`simple` is `errors.New`; `optionsResponder` is the dispatcher's
`*optionsResponder` synthetic error from `http.go` carrying the CORS
allowed-methods list. -/
inductive GoError where
  | apiError (message : String) (code : Int) (token : String)
      (info : Option GoVal) (parent : Option GoError) : GoError
  | redirect (url : String) (code : Int) : GoError
  | httpError (code : Int) : GoError
  | wrapped (pre : String) (inner : GoError) : GoError
  | simple (msg : String) : GoError
  | optionsResponder (allowedMethods : List String) : GoError

/-- The `Error()` method of each modelled error value.  `wrapped pre e`
stands for `fmt.Errorf(pre ++ "%w", e)`, whose message is the prefix
followed by the wrapped message. -/
def errMessage : GoError → String
  | .apiError m _ _ _ _ => m
  | .redirect url _ => "redirect to " ++ url
  | .httpError c => "http error " ++ toString c
  | .wrapped pre inner => pre ++ errMessage inner
  | .simple m => m
  | .optionsResponder _ => "Options responder"

/-- Modelled from the spec: `webutil.HTTPStatus` (external library,
not under src/) — `code = HTTPStatus(err)`, which resolves the
`HTTPStatus() int` capability through the standard unwrap chain and
yields 0 when no status is found.  `*apirouter.Error`,
`webutil.HttpError` and `*webutil.Redirect` expose their codes;
`*optionsResponder` and plain errors expose none. -/
def httpStatus : GoError → Int
  | .apiError _ code _ _ _ => code
  | .redirect _ code => code
  | .httpError code => code
  | .wrapped _ inner => httpStatus inner
  | .simple _ => 0
  | .optionsResponder _ => 0

/-- `errors.As(err, &target)` for target type `*apirouter.Error`:
succeeds on a direct `*Error` or by unwrapping `fmt.Errorf` wrappers
(and `*Error` parents).  Returns the (message, code, token, info) of
the first `*Error` found. -/
def asApiError : GoError → Option (String × Int × String × Option GoVal)
  | .apiError m c t i _ => some (m, c, t, i)
  | .wrapped _ inner => asApiError inner
  | _ => none

/-- `errors.As(err, &target)` for target type `*webutil.Redirect`. -/
def asRedirect : GoError → Option (String × Int)
  | .redirect u c => some (u, c)
  | .wrapped _ inner => asRedirect inner
  | .apiError _ _ _ _ (some p) => asRedirect p
  | _ => none

/-- `ErrNotFound` from `errors.go`: 404, token `error_not_found`,
wrapping `fs.ErrNotExist`. -/
def errNotFound : GoError :=
  .apiError "Not found" 404 "error_not_found" none (some (.simple "file does not exist"))

/-- `ErrLengthRequired` from `errors.go`: 411, token
`error_length_required`. -/
def errLengthRequired : GoError :=
  .apiError "Content-Length header is required for this request" 411
    "error_length_required" none none

/-- `ErrRequestEntityTooLarge` from `errors.go`: 413, token
`error_request_entity_too_large`. -/
def errRequestEntityTooLarge : GoError :=
  .apiError "Request body is too large" 413 "error_request_entity_too_large" none none

/-- `ErrTeapot` from `errors.go`: 418, token `error_teapot`. -/
def errTeapot : GoError :=
  .apiError "A teapot has appeared" 418 "error_teapot" none none

end ApiRouter

namespace ApiRouter

/-- Keys of the `context.Context.Value` protocol that the embedding
distinguishes: plain string keys, and the private `ctxGetPreObjects`
control key of `ctxctrl.go` through which `getPreObjects` obtains the
pre-attached object map. -/
inductive CKey where
  | strKey (s : String) : CKey
  | preObjectsKey : CKey

/-- An external `context.Context` carrier (e.g. `context.Background`,
`req.Context()`, or a `ctxController`), modelled by its `Value`
function restricted to the keys above.  Carriers modelled here have no
`*apirouter.Context` ancestor (the pointer-key lookup used by `goTop`
returns nil on them). -/
abbrev Carrier := CKey → Option GoVal

/-- The per-request state of `apirouter.Context` (`context.go`).
`domain` holds the value `GetDomain` would return and `inputJson` the
value of the lazily cached `input_json` (both depend on the raw
`*http.Request`, which is not itself a data value; they are carried as
results).  Fields not involved in any proved property (`rw`, `wsc`,
`rsink`, the raw `req`) are omitted. -/
structure CtxData where
  path : String
  verb : String
  reqid : String
  params : Option GoFields
  getQ : GoFields
  flags : List (String × Bool)
  extra : GoFields
  qid : Option GoVal
  start : Rat
  user : Option GoVal
  csrfOk : Bool
  showProt : Bool
  accept : List String
  events : Option (List (String × Bool))
  objects : GoFields
  domain : String
  inputJson : Option GoVal

/-- An `apirouter.Context`: either a top context whose embedded
`context.Context` is an external carrier (`New`, `NewHttp`), or a child
context whose embedded `context.Context` is its parent
`*apirouter.Context` (`NewChild`). -/
inductive Context where
  | top (d : CtxData) (carrier : Carrier) : Context
  | child (d : CtxData) (parent : Context) : Context

/-- The mutable per-request state of a context. -/
def Context.data : Context → CtxData
  | .top d _ => d
  | .child d _ => d

/-- Replacing the per-request state (models mutation of the fields). -/
def Context.withData : Context → CtxData → Context
  | .top _ c, d => .top d c
  | .child _ p, d => .child d p

/-- Go map-of-bools lookup used for `flags` and `events`. -/
def lookupBool (l : List (String × Bool)) (k : String) : Option Bool :=
  match l with
  | [] => none
  | (key, v) :: tl => if key = k then some v else lookupBool tl k

/-- Go `m[k] = v` on a map of bools. -/
def setBool (l : List (String × Bool)) (k : String) (v : Bool) : List (String × Bool) :=
  match l with
  | [] => [(k, v)]
  | (key, w) :: tl => if key = k then (key, v) :: tl else (key, w) :: setBool tl k v

/-- The string-key part of `(*Context).Value` (`context.go`): the known
keys `input_json`, `http_request`, `domain`, `user_object` and
`request_id` answer from the context itself; any other string key is
forwarded to the embedded `context.Context` (the parent context for a
child, the external carrier for a top context).  `http_request` yields
the raw `*http.Request`, which is not a data value; it is modelled as
absent. -/
def ctxValueStr : Context → String → Option GoVal
  | c, "input_json" => c.data.inputJson
  | _, "http_request" => none
  | c, "domain" => some (.vstr c.data.domain)
  | c, "user_object" => c.data.user
  | c, "request_id" => some (.vstr c.data.reqid)
  | .top _ carrier, k => carrier (.strKey k)
  | .child _ p, k => ctxValueStr p k

/-- `goTop` (`context.go`): follow the embedded-context chain to the
topmost `*apirouter.Context` (the pointer-key `Value(&c2)` lookup finds
the parent context of a child and nothing on an external carrier). -/
def Context.goTop : Context → Context
  | .top d c => .top d c
  | .child _ p => p.goTop

/-- `ListensFor` (`context.go`): evaluated on the topmost context;
`*` is always listened for; otherwise the `events` map is consulted
(`v, ok := c.events[ev]; return v && ok`), a nil map listening for
nothing. -/
def Context.listensFor (c : Context) (ev : String) : Bool :=
  let t := c.goTop
  if ev = "*" then true
  else
    match t.data.events with
    | none => false
    | some evs =>
        match lookupBool evs ev with
        | some v => v
        | none => false

/-- `getPreObjects` (`ctxctrl.go`): the carrier's value at the
`ctxGetPreObjects` control key when it is an object map, else a fresh
empty map. -/
def getPreObjects (carrier : Carrier) : GoFields :=
  match carrier .preObjectsKey with
  | some (.vmap fs) => fs
  | _ => GoFields.nil

/-- `getPreObjects` applied to a `*apirouter.Context`: the control key
is not a string key, so `(*Context).Value` forwards it up the embedded
chain until the external carrier answers. -/
def Context.preObjects : Context → GoFields
  | .top _ carrier => getPreObjects carrier
  | .child _ p => p.preObjects

/-- `strings.TrimLeft(path, "/")`. -/
def trimLeadingSlashes (s : String) : String :=
  String.mk (s.data.dropWhile (fun c => c = '/'))

/-- `New` (`context.go`): fresh context from an external carrier, path
and verb.  `freshUuid` stands for the random
`uuid.Must(uuid.NewRandom()).String()` drawn by this call; `now` for
`time.Now()`.  The request id is adopted from the carrier's
`request_id` value when that is a non-empty string, else it is the
fresh uuid. -/
def Context.new (ctx : Carrier) (freshUuid : String) (path verb : String)
    (now : Rat) : Context :=
  let verb := if verb = "" then "GET" else verb
  let reqid :=
    match ctx (.strKey "request_id") with
    | some (.vstr r) => if r ≠ "" then r else freshUuid
    | _ => freshUuid
  .top
    { path := trimLeadingSlashes path
      verb := verb
      reqid := reqid
      params := none
      getQ := GoFields.nil
      flags := []
      extra := GoFields.nil
      qid := none
      start := now
      user := none
      csrfOk := false
      showProt := false
      accept := []
      events := none
      objects := getPreObjects ctx
      domain := "_default"
      inputJson := none }
    ctx

/-- The decoded frame body of a child request (`childRequest` in
`context.go`): `path`, optional `verb`, `params`, optional raw
`query_id`.  Missing JSON/CBOR fields decode to the Go zero values. -/
structure ChildRequest where
  path : String
  verb : String
  params : Option GoFields
  queryId : Option GoVal

/-- `setChildRequest` (`context.go`): an empty path is rejected;
a non-empty verb overrides the context's verb; path, params and
query id are installed. -/
def setChildRequest (c : Context) (req : ChildRequest) : Context × Option GoError :=
  if req.path = "" then (c, some (.simple "path is missing"))
  else
    let d := c.data
    let d := if req.verb ≠ "" then { d with verb := req.verb } else d
    (c.withData { d with path := req.path, params := req.params, qid := req.queryId },
      none)

/-- `NewChild` (`context.go`): child context for one frame of a
long-lived connection.  The request id is always the freshly drawn
uuid; user, csrf and protected-field state are inherited, the embedded
context is the parent, objects come from `getPreObjects(parent)` (the
parent carrier's pre-object map), and the decoded frame is installed
via `SetBytes`/`setChildRequest`.  `frame` is the result of the
external `pjson`/`cbor` decode of the raw frame bytes. -/
def newChild (parent : Context) (freshUuid : String) (now : Rat)
    (frame : Except String ChildRequest) : Context × Option GoError :=
  let c : Context :=
    .child
      { path := ""
        verb := "GET"
        reqid := freshUuid
        params := none
        getQ := parent.data.getQ
        flags := []
        extra := GoFields.nil
        qid := none
        start := now
        user := parent.data.user
        csrfOk := parent.data.csrfOk
        showProt := parent.data.showProt
        accept := []
        events := none
        objects := parent.preObjects
        domain := parent.data.domain
        inputJson := none }
      parent
  match frame with
  | .error e => (c, some (.simple e))
  | .ok req => setChildRequest c req

end ApiRouter

namespace ApiRouter

/-- An `emitter.Event` as enqueued on the broadcast ring buffer
`wsDataQ` (`websocket.go`): topic string and positional arguments. -/
structure EmitterEvent where
  topic : String
  args : List GoVal

/-- `BroadcastWS` (`websocket.go`): enqueues an event with topic `*`
and argument list `[]any{data}`. -/
def broadcastWS (data : GoVal) : EmitterEvent :=
  { topic := "*", args := [data] }

/-- `SendWS` (`websocket.go`): enqueues an event with the given topic
and argument list `[]any{data}`. -/
def sendWS (topic : String) (data : GoVal) : EmitterEvent :=
  { topic := topic, args := [data] }

/-- One iteration of the per-client reader loop `wsListen`
(`websocket.go`) on one event read from the ring buffer: events with
fewer than two arguments are skipped; the first argument must be a
string channel; if `ListensFor(channel)` holds, the second argument is
encoded (JSON or CBOR by the client's accepted type — both branches
encode `ev.Args[1]`, memoized via `EncodedArg`) and written as one
frame.  The result is the payload written to the client, `none` when
nothing is written. -/
def wsDeliverOne (c : Context) (ev : EmitterEvent) : Option GoVal :=
  match ev.args with
  | arg0 :: arg1 :: _ =>
      match arg0 with
      | .vstr channel => if c.listensFor channel then some arg1 else none
      | _ => none
  | _ => none

end ApiRouter

namespace ApiRouter

/-- `MaxJsonDataLength` (`context.go`): `int64(10<<20) + 1`. -/
def maxJsonDataLength : Int := 10 * 1048576 + 1

/-- `MaxUrlEncodedDataLength` (`context.go`): `int64(1<<20) + 1`. -/
def maxUrlEncodedDataLength : Int := 1048576 + 1

/-- `MaxMultipartFormLength` (`context.go`): `int64(1<<28) + 1`. -/
def maxMultipartFormLength : Int := 268435456 + 1

/-- Splitting a character list at every occurrence of `sep`
(`strings.Split` for a one-byte separator). -/
def splitOnChar (sep : Char) : List Char → List (List Char)
  | [] => [[]]
  | c :: rest =>
      let r := splitOnChar sep rest
      if c = sep then [] :: r
      else
        match r with
        | [] => [[c]]
        | h :: t => (c :: h) :: t

/-- `strings.Split(s, sep)` for a one-character separator. -/
def splitStr (sep : Char) (s : String) : List String :=
  (splitOnChar sep s.data).map String.mk

/-- ASCII approximation of the white space trimmed by
`strings.TrimSpace` (the router only meets ASCII header values). -/
def isGoSpace (c : Char) : Bool :=
  c = ' ' ∨ c = '\t' ∨ c = '\n' ∨ c = '\r'

/-- `strings.TrimSpace`. -/
def trimSpaces (s : String) : String :=
  String.mk (((s.data.dropWhile isGoSpace).reverse.dropWhile isGoSpace).reverse)

/-- Index of the first occurrence of `c` (`strings.IndexByte`; for the
one-byte characters used here byte and rune indices coincide). -/
def idxOf (c : Char) : List Char → Option Nat
  | [] => none
  | x :: xs => if x = c then some 0 else (idxOf c xs).map (· + 1)

/-- `setAccept` (`context.go`): split the `Accept` header on commas,
trim each entry, cut any parameters after a `;` found at a positive
index (trimming again), and keep the non-empty entries in order. -/
def setAccept (s : String) : List String :=
  (splitStr ',' s).filterMap fun w =>
    let v := trimSpaces w
    let v :=
      match idxOf ';' v.data with
      | some p => if p > 0 then trimSpaces (String.mk (v.data.take p)) else v
      | none => v
    if v ≠ "" then some v else none

/-- An incoming HTTP request as `SetHttp` (`context.go`) observes it.
The external collaborators are carried as their outcomes: `rawQuery`
and `bodyPhp` are `webutil.ParsePhpQuery` results, `ctParse` the
`mime.ParseMediaType` result on the `Content-Type` header (media type
and optional `boundary` parameter), `bodyJson` the streaming `pjson`
decode of the request body (the code reads it through a `LimitReader`
whose limit is checked against `ContentLength` first, so for honest
lengths the reader is transparent), `bodyCbor` the `cbor` decode into
`map[string]any`, `bodyParts` the decoded multipart parts (field name
to string value, or `filename`/`data` map for file parts), and
`jsonParse` the `pjson.Unmarshal` syntax function applied to embedded
`_` documents.  `hasCLHeader` is the presence test
`req.Header["Content-Length"]`; `contentLength` is `req.ContentLength`
(0 for no body, -1 for unknown length, e.g. chunked transfer
encoding). -/
structure HttpRequest where
  method : String
  urlPath : String
  rawQuery : GoFields
  acceptHeader : String
  ctx : Carrier
  ctParse : Except String (String × Option String)
  hasCLHeader : Bool
  contentLength : Int
  bodyJson : Except String Jdoc
  bodyCbor : Except String GoFields
  bodyPhp : GoFields
  bodyParts : Except String GoFields
  jsonParse : String → Except String Jdoc
  domain : String

/-- The `_` override shared by the url-encoded and multipart branches
of `SetHttp`: when the parsed body `p` has a string field `_`, that
string is a JSON document replacing all other parameters (decoded by
`pjson.Unmarshal`, i.e. without `UseNumber`; errors are wrapped as
"while reading json request body"); otherwise `params` becomes `p`
itself. -/
def underscoreOverride (c1 : Context) (d1 : CtxData) (rq : HttpRequest)
    (p : GoFields) : Context × Option GoError :=
  match p.lookup "_" with
  | some (.vstr v) =>
      (match rq.jsonParse v with
       | .error e => (c1, some (.wrapped "while reading json request body: " (.simple e)))
       | .ok doc =>
           match asMap (decodeJ false doc) with
           | .error e =>
               (c1, some (.wrapped "while reading json request body: " (.simple e)))
           | .ok ps => (c1.withData { d1 with params := some ps }, none))
  | some _ => (c1.withData { d1 with params := some p }, none)
  | none => (c1.withData { d1 with params := some p }, none)

/-- The media-type switch of `SetHttp` for body-bearing verbs, after
the `Content-Length` checks: per-type `ContentLength` ceilings
(`ErrRequestEntityTooLarge` beyond them), JSON decoded with
`UseNumber`, CBOR via its decoder, url-encoded and multipart bodies
through the `_` override, unknown types ignored. -/
def setHttpBody (c1 : Context) (d1 : CtxData) (rq : HttpRequest)
    (ct : String) (boundary : Option String) : Context × Option GoError :=
  if ct = "application/json" then
    if rq.contentLength > maxJsonDataLength then (c1, some errRequestEntityTooLarge)
    else
      match rq.bodyJson with
      | .error e => (c1, some (.wrapped "while reading json request body: " (.simple e)))
      | .ok doc =>
          match asMap (decodeJ true doc) with
          | .error e =>
              (c1, some (.wrapped "while reading json request body: " (.simple e)))
          | .ok ps => (c1.withData { d1 with params := some ps }, none)
  else if ct = "application/cbor" then
    if rq.contentLength > maxJsonDataLength then (c1, some errRequestEntityTooLarge)
    else
      match rq.bodyCbor with
      | .error e => (c1, some (.wrapped "while reading cbor request body: " (.simple e)))
      | .ok ps => (c1.withData { d1 with params := some ps }, none)
  else if ct = "application/x-www-form-urlencoded" then
    if rq.contentLength > maxUrlEncodedDataLength then (c1, some errRequestEntityTooLarge)
    else underscoreOverride c1 d1 rq rq.bodyPhp
  else if ct = "multipart/form-data" then
    if rq.contentLength > maxMultipartFormLength then (c1, some errRequestEntityTooLarge)
    else
      match boundary with
      | none => (c1, some (.simple "mime: no multipart boundary param in Content-Type"))
      | some _ =>
          match rq.bodyParts with
          | .error e =>
              (c1, some (.wrapped "while reading multipart form data: " (.simple e)))
          | .ok p => underscoreOverride c1 d1 rq p
  else (c1, none)

/-- The `POST`/`PATCH`/`PUT` arm of `SetHttp`: parse the
`Content-Type` (returning its error as-is), handle the
zero-`ContentLength` cases (`ErrLengthRequired` without a
`Content-Length` header, otherwise no params and no error), then
dispatch on the media type. -/
def setHttpBodyVerb (c1 : Context) (d1 : CtxData) (rq : HttpRequest) :
    Context × Option GoError :=
  match rq.ctParse with
  | .error e => (c1, some (.simple e))
  | .ok (ct, boundary) =>
      if rq.contentLength = 0 then
        if ¬ rq.hasCLHeader then (c1, some errLengthRequired) else (c1, none)
      else setHttpBody c1 d1 rq ct boundary

/-- The non-body arm of `SetHttp`: a string `_` query value is decoded
with `pjson.Unmarshal` as the whole parameter object (errors returned
as-is), a present non-string `_` leaves `params` absent, and absent
`_` makes the parsed query the parameters. -/
def setHttpQueryParams (c1 : Context) (d1 : CtxData) (rq : HttpRequest) :
    Context × Option GoError :=
  match rq.rawQuery.lookup "_" with
  | some (.vstr v) =>
      (match rq.jsonParse v with
       | .error e => (c1, some (.simple e))
       | .ok doc =>
           match asMap (decodeJ false doc) with
           | .error e => (c1, some (.simple e))
           | .ok ps => (c1.withData { d1 with params := some ps }, none))
  | some _ => (c1, none)
  | none => (c1.withData { d1 with params := some rq.rawQuery }, none)

/-- `SetHttp` (`context.go`), parameter-resolution part: installs verb,
parsed query string, `raw`/`pretty` flags and accept list; then, when
`params` are not already set, parses them via the body arm
(`setHttpBodyVerb`/`setHttpBody`) for body-bearing verbs and via the
query arm (`setHttpQueryParams`) otherwise, exactly as the Go switch
does.  (The body-replay buffering of bodies below the JSON limit and
the partial map left by a failed decode are not observable here.) -/
def setHttp (c : Context) (rq : HttpRequest) : Context × Option GoError :=
  let d0 := c.data
  let get := rq.rawQuery
  let flags0 := if get.hasKey "raw" then setBool d0.flags "raw" true else d0.flags
  let flags1 := if get.hasKey "pretty" then setBool flags0 "pretty" true else flags0
  let acc := if rq.acceptHeader ≠ "" then setAccept rq.acceptHeader else d0.accept
  let d1 := { d0 with
    verb := rq.method, getQ := get, flags := flags1, accept := acc,
    domain := rq.domain }
  let c1 := c.withData d1
  if d0.params.isSome then (c1, none)
  else if rq.method = "POST" ∨ rq.method = "PATCH" ∨ rq.method = "PUT" then
    setHttpBodyVerb c1 d1 rq
  else setHttpQueryParams c1 d1 rq

/-- `NewHttp` (`context.go`): context from an HTTP request/response
pair — request id adopted from the request context's non-empty
`request_id` else the fresh uuid, path from the URL path with leading
slashes trimmed, then `SetHttp`.  The context is returned even when
`SetHttp` fails. -/
def newHttp (rq : HttpRequest) (freshUuid : String) (now : Rat) :
    Context × Option GoError :=
  let reqid :=
    match rq.ctx (.strKey "request_id") with
    | some (.vstr r) => if r ≠ "" then r else freshUuid
    | _ => freshUuid
  let c0 : Context :=
    .top
      { path := trimLeadingSlashes rq.urlPath
        verb := rq.method
        reqid := reqid
        params := none
        getQ := GoFields.nil
        flags := []
        extra := GoFields.nil
        qid := none
        start := now
        user := none
        csrfOk := false
        showProt := false
        accept := []
        events := none
        objects := getPreObjects rq.ctx
        domain := rq.domain
        inputJson := none }
      rq.ctx
  setHttp c0 rq

end ApiRouter

namespace ApiRouter

/-- Parameters handed to registry actions and static methods
(`c.params`): a possibly-nil `map[string]any`. -/
abbrev Params := Option GoFields

/-- An object returned by a `Fetch` action, as the dispatcher sees it:
its value, and the optional `Updatable`/`Deletable` capabilities
(`intf.go`).  `some r` for `update` means the object implements
`ApiUpdate(ctx)` with outcome `r` for this request; likewise `delete`
for `ApiDelete(ctx)`. -/
structure ApiObject where
  val : GoVal
  update : Option (Except GoError Unit)
  delete : Option (Except GoError Unit)

/-- The `pobj` action set of a registry node (external `pobj` library):
optional `Fetch`, `List`, `Create`, `Clear` actions.  `Fetch` receives
the id (the dispatcher calls it with `struct{Id string}{Id: s}`) and
may yield `nil` (`none`); the others receive the request params. -/
structure ActionSet where
  fetch : Option (String → Except GoError (Option ApiObject))
  list : Option (Params → Except GoError GoVal)
  create : Option (Params → Except GoError GoVal)
  clear : Option (Params → Except GoError GoVal)

/-- A node of the external `pobj` object-registry tree: name (its
`String()`), children classes, optional action set, and static
methods. -/
inductive ObjNode where
  | mk (name : String) (children : List (String × ObjNode))
      (action : Option ActionSet)
      (statics : List (String × (Params → Except GoError GoVal))) : ObjNode

def ObjNode.name : ObjNode → String
  | .mk n _ _ _ => n

def ObjNode.action : ObjNode → Option ActionSet
  | .mk _ _ a _ => a

/-- `r.Child(s)` on the registry tree. -/
def ObjNode.child : ObjNode → String → Option ObjNode
  | .mk _ children _ _, s =>
      match children.find? (fun p => p.1 = s) with
      | some p => some p.2
      | none => none

/-- `r.Static(m)` on the registry tree. -/
def ObjNode.static : ObjNode → String → Option (Params → Except GoError GoVal)
  | .mk _ _ _ statics, m =>
      match statics.find? (fun p => p.1 = m) with
      | some p => some p.2
      | none => none

/-- The dispatcher's `obj` variable during the path walk: `nil`
(`none`), the `obj = true` sentinel installed for an id segment under
OPTIONS, or a fetched object. -/
inductive WalkObj where
  | sentinel : WalkObj
  | real (o : ApiObject) : WalkObj

/-- The Go `any` value of the walk object (`obj = true` is the boolean
`true`). -/
def WalkObj.val : WalkObj → GoVal
  | .sentinel => .vbool true
  | .real o => o.val

/-- `s[0] >= 'A' && s[0] <= 'Z'` on a non-empty segment (a multi-byte
first rune begins with a byte above `Z`, so the byte test and this
character test agree). -/
def isUpperFirst (s : String) : Bool :=
  match s.data with
  | [] => false
  | c :: _ => decide ('A' ≤ c ∧ c ≤ 'Z')

/-- One path segment of the dispatcher walk (`Call` in the routing
file): empty segments are skipped; an uppercase-initial segment with a
matching child descends and clears `obj`; everything else is an id
attempt — rejected with `ErrNotFound` when an object is already
resolved, when the node has no action set, or no `Fetch` action; under
a CORS preflight (`OPTIONS`) the fetch is skipped and `obj` becomes the
sentinel; otherwise `Fetch` is invoked with the segment as the id and
its result becomes `obj` (the fetched object is also cached in the
context's object map, which is not modelled). -/
def walkSeg (corsReq : Bool) (r : ObjNode) (obj : Option WalkObj) (s : String) :
    Except GoError (ObjNode × Option WalkObj) :=
  if s = "" then .ok (r, obj)
  else
    let idStep : Except GoError (ObjNode × Option WalkObj) :=
      if obj.isSome then .error errNotFound
      else
        match r.action with
        | none => .error errNotFound
        | some a =>
            match a.fetch with
            | none => .error errNotFound
            | some get =>
                if corsReq then .ok (r, some .sentinel)
                else
                  match get s with
                  | .error e => .error e
                  | .ok res => .ok (r, res.map WalkObj.real)
    if isUpperFirst s then
      match r.child s with
      | some v => .ok (v, none)
      | none => idStep
    else idStep

/-- The dispatcher walk over all path segments. -/
def walk (corsReq : Bool) : ObjNode → Option WalkObj → List String →
    Except GoError (ObjNode × Option WalkObj)
  | r, obj, [] => .ok (r, obj)
  | r, obj, s :: rest =>
      match walkSeg corsReq r obj s with
      | .error e => .error e
      | .ok (r2, obj2) => walk corsReq r2 obj2 rest

/-- `strings.LastIndexByte(p, ':')` splitting of the static-method
suffix: everything after the last `:` is the method, the rest the
path; no `:` means no method. -/
def splitMethod (p : String) : String × Option String :=
  match (splitStr ':' p).reverse with
  | last :: rest@(_ :: _) => (String.intercalate ":" rest.reverse, some last)
  | _ => (p, none)

/-- The verb dispatch of `Call` after the walk (routing file, current
version with CORS handling).  `corsReq` is `verb == "OPTIONS"`; the
three `optionsResponder` errors carry the fixed allowed-method lists
(each such return also sets the context's `raw` flag, not modelled).
With a static-method suffix: under CORS the fixed list, otherwise the
method is resolved (`ErrNotFound` when absent) and invoked for
GET/HEAD/POST, other verbs being 405.  With a resolved object: under
CORS the instance list, otherwise GET/HEAD return the object, PATCH
and DELETE require the `Updatable`/`Deletable` capability (405
otherwise), other verbs 405.  Without an object: no action set is
`ErrNotFound`, under CORS the collection list, then GET/HEAD→List,
POST→Create, DELETE→Clear (405 when the action is missing or the verb
unknown). -/
def routeAfterWalk (corsReq : Bool) (verb : String) (r : ObjNode)
    (obj : Option WalkObj) (msuffix : Option String) (params : Params) :
    Except GoError GoVal :=
  match msuffix with
  | some m =>
      if corsReq then .error (.optionsResponder ["GET", "POST", "HEAD", "OPTIONS"])
      else
        match r.static m with
        | none => .error errNotFound
        | some meth =>
            if verb = "HEAD" ∨ verb = "GET" ∨ verb = "POST" then meth params
            else .error (.httpError 405)
  | none =>
      match obj with
      | some o =>
          if corsReq then
            .error (.optionsResponder ["GET", "HEAD", "OPTIONS", "PATCH", "DELETE"])
          else if verb = "HEAD" ∨ verb = "GET" then .ok o.val
          else if verb = "PATCH" then
            match o with
            | .real ro =>
                (match ro.update with
                 | some (.ok _) => .ok ro.val
                 | some (.error e) => .error e
                 | none => .error (.httpError 405))
            | .sentinel => .error (.httpError 405)
          else if verb = "DELETE" then
            match o with
            | .real ro =>
                (match ro.delete with
                 | some (.ok _) => .ok ro.val
                 | some (.error e) => .error e
                 | none => .error (.httpError 405))
            | .sentinel => .error (.httpError 405)
          else .error (.httpError 405)
      | none =>
          match r.action with
          | none => .error errNotFound
          | some a =>
              if corsReq then
                .error (.optionsResponder ["GET", "HEAD", "OPTIONS", "POST", "DELETE"])
              else if verb = "HEAD" ∨ verb = "GET" then
                match a.list with
                | some f => f params
                | none => .error (.httpError 405)
              else if verb = "POST" then
                match a.create with
                | some f => f params
                | none => .error (.httpError 405)
              else if verb = "DELETE" then
                match a.clear with
                | some f => f params
                | none => .error (.httpError 405)
              else .error (.httpError 405)

/-- Whether the path starts with `@` (`len(p) >= 1 && p[0] == '@'`). -/
def startsWithAt (p : String) : Bool :=
  match p.data with
  | c :: _ => c = '@'
  | [] => false

/-- `(*Context).Call` (routing file): paths starting with `@` delegate
to the special call table (`CallSpecial`, defined outside src/ and
passed here as `special`); otherwise the optional `:method` suffix is
split off, the remaining path is split on `/`, walked through the
registry from the root, and the verb dispatch runs. -/
def callRouter (special : Except GoError GoVal) (root : ObjNode)
    (verb path : String) (params : Params) : Except GoError GoVal :=
  if startsWithAt path then special
  else
    let corsReq := verb = "OPTIONS"
    let pm := splitMethod path
    match walk corsReq root none (splitStr '/' pm.1) with
    | .error e => .error e
    | .ok (r, obj) => routeAfterWalk corsReq verb r obj pm.2 params

/-- `getAllowedMethods` on `*optionsResponder` (`http.go`): the
`Access-Control-Allow-Methods` header value — the joined method list,
or the full default list for a nil list. -/
def getAllowedMethods (allowedMethods : Option (List String)) : String :=
  match allowedMethods with
  | none => "POST, GET, OPTIONS, PUT, DELETE, PATCH"
  | some l => String.intercalate ", " l

end ApiRouter

namespace ApiRouter

/-- The `Response` envelope (response file, current version): result
kind, error message/token/info, status code, debug, request id, elapsed
time, data payload, redirect target, echoed query id; plus the
originating error and the back-link to the context. -/
structure Response where
  Result : String
  Error : String
  Token : String
  ErrorInfo : Option GoVal
  Code : Int
  Debug : String
  RequestId : String
  Time : Rat
  Data : GoVal
  RedirectURL : String
  RedirectCode : Int
  QueryId : Option GoVal
  err : Option GoError
  ctx : Context

/-- `errorResponse` (response file): `code = HTTPStatus(err)` with 0
mapped to 500; a direct `*webutil.Redirect` (plain type assertion, no
unwrapping) produces a `redirect` envelope with URL and redirect code
(and zero `Code`); anything else produces an `error` envelope with the
error message and the computed code, and — only when the error is
directly a `*apirouter.Error` — its `Token` and `Info`.  `now` stands
for `time.Now()` at envelope construction. -/
def errorResponse (c : Context) (now : Rat) (e : GoError) : Response :=
  let code := if httpStatus e = 0 then 500 else httpStatus e
  match e with
  | .redirect url rcode =>
      { Result := "redirect", Error := "", Token := "", ErrorInfo := none
        Code := 0, Debug := "", RequestId := c.data.reqid
        Time := now - c.data.start, Data := .vnull
        RedirectURL := url, RedirectCode := rcode, QueryId := c.data.qid
        err := some e, ctx := c }
  | _ =>
      let res : Response :=
        { Result := "error", Error := errMessage e, Token := "", ErrorInfo := none
          Code := code, Debug := "", RequestId := c.data.reqid
          Time := now - c.data.start, Data := .vnull
          RedirectURL := "", RedirectCode := 0, QueryId := c.data.qid
          err := some e, ctx := c }
      match e with
      | .apiError _ _ tok info _ => { res with Token := tok, ErrorInfo := info }
      | _ => res

/-- Map update `res[k] = v` on the envelope under construction,
extensionally. -/
def mset (m : String → Option GoVal) (k : String) (v : GoVal) :
    String → Option GoVal :=
  fun q => if q = k then some v else m q

/-- `getResponseData` (response file): the envelope map — a copy of the
context's `extra` map, then in order `result`; `error` and `code` when
the error message is non-empty; `time`; `data`; `request_id`;
`redirect_url` when a redirect target is present, plus `redirect_code`
when also non-zero; `token` when non-empty; `error_info` when non-nil;
`query_id` when non-nil.  Modelled extensionally as a lookup
function. -/
def getResponseData (r : Response) : String → Option GoVal :=
  let m0 : String → Option GoVal := fun k => r.ctx.data.extra.lookup k
  let m1 := mset m0 "result" (.vstr r.Result)
  let m2 :=
    if r.Error ≠ "" then mset (mset m1 "error" (.vstr r.Error)) "code" (.vint r.Code)
    else m1
  let m3 := mset m2 "time" (.vrat r.Time)
  let m4 := mset m3 "data" r.Data
  let m5 := mset m4 "request_id" (.vstr r.RequestId)
  let m6 :=
    if r.RedirectURL ≠ "" then
      let t := mset m5 "redirect_url" (.vstr r.RedirectURL)
      if r.RedirectCode ≠ 0 then mset t "redirect_code" (.vint r.RedirectCode) else t
    else m5
  let m7 := if r.Token ≠ "" then mset m6 "token" (.vstr r.Token) else m6
  let m8 :=
    match r.ErrorInfo with
    | some i => mset m7 "error_info" i
    | none => m7
  match r.QueryId with
  | some q => mset m8 "query_id" q
  | none => m8

end ApiRouter

namespace ApiRouter

/-! ### Concrete fixtures used by the closed theorems below -/

/-- A demo `Fetch` action: id `42` resolves to a user object without
`Updatable`/`Deletable` capabilities, other ids are not found. -/
def demoFetch : String → Except GoError (Option ApiObject) :=
  fun i =>
    if i = "42" then .ok (some { val := .vstr "user42", update := none, delete := none })
    else .error errNotFound

/-- The demo `User` action set: `Fetch` and `List` only. -/
def demoUserAction : ActionSet :=
  { fetch := some demoFetch
    list := some (fun _ => .ok (.vstr "user-list"))
    create := none
    clear := none }

/-- The demo `User` registry node (no children, no static methods). -/
def demoUserNode : ObjNode := .mk "User" [] (some demoUserAction) []

/-- A demo registry root with the single class `User`. -/
def demoRoot : ObjNode := .mk "root" [("User", demoUserNode)] none []

/-- The special-call-table result used by closed dispatcher evaluations
(never reached: no demo path starts with `@`). -/
def demoSpecial : Except GoError GoVal := .error (.simple "special call table")

/-- A plain top-level context over an empty carrier. -/
def fixCtx : Context := Context.new (fun _ => none) "rid-0" "User" "GET" 0

/-- A carrier supplying the non-empty `request_id` value `abc`. -/
def fixCarrier : Carrier := fun k =>
  match k with
  | .strKey "request_id" => some (.vstr "abc")
  | _ => none

/-- A baseline HTTP request all concrete requests below are variations
of. -/
def baseReq : HttpRequest :=
  { method := "POST"
    urlPath := "/User"
    rawQuery := GoFields.nil
    acceptHeader := ""
    ctx := fun _ => none
    ctParse := .ok ("application/json", none)
    hasCLHeader := true
    contentLength := 2
    bodyJson := .ok (.jobj [])
    bodyCbor := .error "not cbor"
    bodyPhp := GoFields.nil
    bodyParts := .error "not multipart"
    jsonParse := fun _ => .error "invalid character"
    domain := "_default" }

/-- A chunked POST: no `Content-Length` header, `ContentLength = -1`,
valid JSON body. -/
def chunkedReq : HttpRequest :=
  { baseReq with hasCLHeader := false, contentLength := -1,
                 bodyJson := .ok (.jobj [("a", .jstr "b")]) }

/-- A POST with a `Content-Length: 0` header. -/
def zeroLenReq : HttpRequest :=
  { baseReq with hasCLHeader := true, contentLength := 0 }

/-- A POST whose body is missing its `Content-Length` header and has
no body (`ContentLength = 0`). -/
def noHeaderReq : HttpRequest :=
  { baseReq with hasCLHeader := false, contentLength := 0 }

/-- A JSON POST whose `ContentLength` is exactly
`MaxJsonDataLength = 10 MiB + 1`. -/
def atLimitReq : HttpRequest :=
  { baseReq with contentLength := 10485761,
                 bodyJson := .ok (.jobj [("a", .jstr "b")]) }

/-- A JSON POST whose `ContentLength` is `MaxJsonDataLength + 1`. -/
def overLimitReq : HttpRequest :=
  { baseReq with contentLength := 10485762,
                 bodyJson := .ok (.jobj [("a", .jstr "b")]) }

/-- The JSON object document `\x7b"a":1\x7d`. -/
def numDoc : Jdoc := .jobj [("a", .jnum "1")]

/-- The source text of `numDoc`. -/
def numDocText : String := "\x7b\x22a\x22:1\x7d"

/-- The `pjson` parse oracle knowing exactly the text of `numDoc`. -/
def numDocParse : String → Except String Jdoc := fun s =>
  if s = numDocText then .ok numDoc else .error "invalid character"

/-- Sending `numDoc` directly as an `application/json` body. -/
def numJsonReq : HttpRequest :=
  { baseReq with bodyJson := .ok numDoc, contentLength := 9,
                 jsonParse := numDocParse }

/-- Sending the text of `numDoc` as the string value of the field `_`
of an `application/x-www-form-urlencoded` body. -/
def numFormReq : HttpRequest :=
  { baseReq with ctParse := .ok ("application/x-www-form-urlencoded", none)
                 contentLength := 11
                 bodyJson := .error "not json"
                 bodyPhp := [("_", .vstr numDocText)]
                 jsonParse := numDocParse }

/-- A context whose `extra` map pre-sets a custom key and tries to
shadow the standard `error` key. -/
def extraCtx : Context :=
  fixCtx.withData
    { fixCtx.data with
        extra := [("paging", .vstr "extra-kept"), ("error", .vstr "shadowed")] }

/-- An error response carrying `extraCtx`, used to evaluate the
envelope overlay. -/
def fixResponse : Response :=
  { Result := "error", Error := "boom", Token := "error_teapot"
    ErrorInfo := none, Code := 418, Debug := "", RequestId := "rid-0"
    Time := 1, Data := .vnull, RedirectURL := "", RedirectCode := 0
    QueryId := none, err := some errTeapot, ctx := extraCtx }

/-- An HTTP request whose context carrier supplies `request_id`
`abc`. -/
def carrierReq : HttpRequest := { baseReq with ctx := fixCarrier }

/-- A well-formed child frame for `NewChild`. -/
def childFrame : Except String ChildRequest :=
  .ok { path := "Ping", verb := "", params := none, queryId := none }

/-- A `fmt.Errorf`-wrapped `ErrTeapot`. -/
def wrappedTeapot : GoError := .wrapped "during call: " errTeapot

end ApiRouter

namespace ApiRouter

/-! ### Shared helper lemmas -/

/-- A segment with an uppercase first byte is non-empty. -/
theorem isUpperFirst_ne_empty {s : String} (h : isUpperFirst s = true) :
    s ≠ "" := by
  intro he
  subst he
  exact absurd h (by decide)

/-- `withData` installs exactly the given state. -/
theorem Context.data_withData (c : Context) (d : CtxData) :
    (c.withData d).data = d := by
  cases c <;> rfl

/-- Walk step on an uppercase segment with a matching child: descend
and clear the resolved object. -/
theorem walkSeg_class (corsReq : Bool) (r : ObjNode) (obj : Option WalkObj)
    (s : String) (v : ObjNode) (hup : isUpperFirst s = true)
    (hchild : r.child s = some v) :
    walkSeg corsReq r obj s = .ok (v, none) := by
  have hne := isUpperFirst_ne_empty hup
  simp [walkSeg, hne, hup, hchild]

/-- Walk step on an id segment while an object is already resolved:
`ErrNotFound`, regardless of the node's actions. -/
theorem walkSeg_objSet (corsReq : Bool) (r : ObjNode) (o : WalkObj)
    (s : String) (hne : s ≠ "")
    (hnochild : isUpperFirst s = false ∨ r.child s = none) :
    walkSeg corsReq r (some o) s = .error errNotFound := by
  rcases hnochild with h | h <;> simp [walkSeg, hne, h]

/-- Walk step on an id segment with no resolved object and a `Fetch`
action, outside CORS preflight: the fetch runs on the segment. -/
theorem walkSeg_fetch (r : ObjNode) (s : String) (A : ActionSet)
    (f : String → Except GoError (Option ApiObject)) (hne : s ≠ "")
    (hnoup : isUpperFirst s = false) (ha : r.action = some A)
    (hf : A.fetch = some f) :
    walkSeg false r none s =
      (match f s with
       | .error e => .error e
       | .ok res => .ok (r, res.map WalkObj.real)) := by
  simp [walkSeg, hne, hnoup, ha, hf]

mutual

/-- Decoding without `UseNumber` is decoding with `UseNumber` followed
by the `json.Number`-to-`float64` replacement. -/
theorem numToFloat_decodeJ : ∀ d : Jdoc,
    numToFloat (decodeJ true d) = decodeJ false d
  | .jnull => rfl
  | .jbool _ => rfl
  | .jstr _ => rfl
  | .jnum _ => rfl
  | .jarr xs => by
      simp only [decodeJ, numToFloat, numToFloat_decodeJList xs]
  | .jobj fs => by
      simp only [decodeJ, numToFloat, numToFloat_decodeJFields fs]

theorem numToFloat_decodeJList : ∀ xs : List Jdoc,
    numToFloatList (decodeJList true xs) = decodeJList false xs
  | [] => rfl
  | d :: tl => by
      simp only [decodeJList, numToFloatList, numToFloat_decodeJ d,
        numToFloat_decodeJList tl]

theorem numToFloat_decodeJFields : ∀ fs : List (String × Jdoc),
    numToFloatFields (decodeJFields true fs) = decodeJFields false fs
  | [] => rfl
  | (k, d) :: tl => by
      simp only [decodeJFields, numToFloatFields, numToFloat_decodeJ d,
        numToFloat_decodeJFields tl]

end

/-- Both decoding modes produce the same keys in the same order. -/
theorem decodeJFields_keys (u : Bool) :
    ∀ fs : List (String × Jdoc),
      GoFields.keys (decodeJFields u fs) = fs.map Prod.fst
  | [] => rfl
  | (k, d) :: tl => by
      have ih := decodeJFields_keys u tl
      simp only [GoFields.keys] at ih
      simp [decodeJFields, GoFields.keys, ih]

end ApiRouter

namespace ApiRouter

/-- The `_` override never changes the request id. -/
theorem underscoreOverride_reqid (c1 : Context) (d1 : CtxData)
    (rq : HttpRequest) (p : GoFields) (h : c1.data = d1) :
    (underscoreOverride c1 d1 rq p).1.data.reqid = d1.reqid := by
  unfold underscoreOverride
  repeat' split
  all_goals simp [Context.data_withData, h]

/-- The media-type switch never changes the request id. -/
theorem setHttpBody_reqid (c1 : Context) (d1 : CtxData) (rq : HttpRequest)
    (ct : String) (boundary : Option String) (h : c1.data = d1) :
    (setHttpBody c1 d1 rq ct boundary).1.data.reqid = d1.reqid := by
  unfold setHttpBody
  repeat' split
  all_goals
    first
      | exact underscoreOverride_reqid _ _ _ _ h
      | simp [Context.data_withData, h]

/-- The body arm of `SetHttp` never changes the request id. -/
theorem setHttpBodyVerb_reqid (c1 : Context) (d1 : CtxData)
    (rq : HttpRequest) (h : c1.data = d1) :
    (setHttpBodyVerb c1 d1 rq).1.data.reqid = d1.reqid := by
  unfold setHttpBodyVerb
  repeat' split
  all_goals
    first
      | exact setHttpBody_reqid _ _ _ _ _ h
      | simp [Context.data_withData, h]

/-- The query arm of `SetHttp` never changes the request id. -/
theorem setHttpQueryParams_reqid (c1 : Context) (d1 : CtxData)
    (rq : HttpRequest) (h : c1.data = d1) :
    (setHttpQueryParams c1 d1 rq).1.data.reqid = d1.reqid := by
  unfold setHttpQueryParams
  repeat' split
  all_goals simp [Context.data_withData, h]

/-- The parameter-parsing part of `SetHttp` never changes the request
id. -/
theorem setHttp_reqid (c : Context) (rq : HttpRequest) :
    (setHttp c rq).1.data.reqid = c.data.reqid := by
  simp only [setHttp]
  split
  · simp [Context.data_withData]
  · split
    · rw [setHttpBodyVerb_reqid _ _ _ (Context.data_withData c _)]
    · rw [setHttpQueryParams_reqid _ _ _ (Context.data_withData c _)]

/-- `setChildRequest` never changes the request id. -/
theorem setChildRequest_reqid (c : Context) (req : ChildRequest) :
    (setChildRequest c req).1.data.reqid = c.data.reqid := by
  unfold setChildRequest
  by_cases h : req.path = "" <;> by_cases hv : req.verb = "" <;>
    simp [h, hv, Context.data_withData]

/-- `NewChild` installs exactly the freshly drawn uuid as request
id. -/
theorem newChild_reqid (parent : Context) (fresh : String) (now : Rat)
    (frame : Except String ChildRequest) :
    (newChild parent fresh now frame).1.data.reqid = fresh := by
  rcases frame with e | req
  · rfl
  · show (setChildRequest _ req).1.data.reqid = fresh
    rw [setChildRequest_reqid]
    rfl

end ApiRouter

namespace ApiRouter

/-! ### Claim theorems -/

/-- C1: the events appended to the broadcast ring buffer by
`BroadcastWS(ctx, payload)` and `SendWS(ctx, topic, payload)` carry the
single positional argument `[payload]` — not the two positional
arguments `(topic, payload)` the claim (and the functions' own doc
comment, which promises delivery to all connected peers) requires — so
the per-client reader loop `wsListen`, which skips every event with
fewer than two arguments, delivers them to no client whatsoever. -/
theorem c1_broadcast_events_never_delivered (c : Context) (payload : GoVal)
    (topic : String) :
    broadcastWS payload = { topic := "*", args := [payload] } ∧
    sendWS topic payload = { topic := topic, args := [payload] } ∧
    wsDeliverOne c (broadcastWS payload) = none ∧
    wsDeliverOne c (sendWS topic payload) = none ∧
    wsDeliverOne c { topic := "*", args := [.vstr "*", payload] } = some payload :=
  ⟨rfl, rfl, rfl, rfl, by simp [wsDeliverOne, Context.listensFor]⟩

/-- C2 counterexample: `NewChild` from a parent context that supplies
the non-empty `request_id` value `rid-0` through the context-carrier
protocol gives the child the freshly drawn uuid `f-id`, not the
carrier-supplied value — so the adoption half of the claim fails for
the child constructor. -/
theorem c2_newchild_ignores_carrier_request_id :
    ctxValueStr fixCtx "request_id" = some (.vstr "rid-0") ∧
    ("rid-0" : String) ≠ "" ∧
    (newChild fixCtx "f-id" 0 childFrame).1.data.reqid = "f-id" ∧
    ("f-id" : String) ≠ "rid-0" :=
  ⟨rfl, by decide, rfl, by decide⟩

/-- C2 (amended): `New` and `NewHttp` adopt a non-empty
carrier-supplied `request_id` verbatim; `NewChild` always assigns the
freshly drawn uuid, whatever the parent supplies — so a child's
request id avoids any set of already-used ids whenever the fresh uuid
does. -/
theorem c2_request_id_adoption_amended
    (ctx : Carrier) (fresh path verb : String) (now : Rat)
    (rq : HttpRequest) (parent : Context) (frame : Except String ChildRequest)
    (r : String) (hr : ctx (.strKey "request_id") = some (.vstr r))
    (hne : r ≠ "") (hrq : rq.ctx = ctx) (used : List String)
    (hfresh : fresh ∉ used) :
    (Context.new ctx fresh path verb now).data.reqid = r ∧
    (newHttp rq fresh now).1.data.reqid = r ∧
    (newChild parent fresh now frame).1.data.reqid = fresh ∧
    (newChild parent fresh now frame).1.data.reqid ∉ used := by
  refine ⟨?_, ?_, newChild_reqid parent fresh now frame, ?_⟩
  · simp [Context.new, Context.data, hr, hne]
  · rw [newHttp, setHttp_reqid]
    simp [Context.data, hrq, hr, hne]
  · rw [newChild_reqid]
    exact hfresh

/-- C2 witness: the amended statement at the concrete carrier
`fixCarrier` (supplying `abc`), fresh uuid `f-9`, and parent
`fixCtx`. -/
theorem c2_request_id_adoption_amended_witness :
    (Context.new fixCarrier "f-9" "User" "GET" 0).data.reqid = "abc" ∧
    (newHttp carrierReq "f-9" 0).1.data.reqid = "abc" ∧
    (newChild fixCtx "f-9" 0 childFrame).1.data.reqid = "f-9" ∧
    (newChild fixCtx "f-9" 0 childFrame).1.data.reqid ∉ ["rid-0", "abc"] :=
  c2_request_id_adoption_amended fixCarrier "f-9" "User" "GET" 0 carrierReq
    fixCtx childFrame "abc" rfl (by decide) rfl ["rid-0", "abc"] (by decide)

end ApiRouter

namespace ApiRouter

/-- C3 counterexample: the error `fmt.Errorf("during call: %w",
ErrTeapot)` unwraps (via `errors.As`) to the framework Error with token
`error_teapot`, but `errorResponse` copies `Token`/`Info` only through
a direct `err.(*Error)` type assertion, so the envelope's token stays
empty — refuting the claim's "whenever err unwraps as the framework's
Error type, Token and ErrorInfo are copied from it". -/
theorem c3_wrapped_error_token_not_copied :
    asApiError wrappedTeapot
      = some ("A teapot has appeared", 418, "error_teapot", none) ∧
    (errorResponse fixCtx 0 wrappedTeapot).Token = "" ∧
    ("" : String) ≠ "error_teapot" ∧
    (errorResponse fixCtx 0 wrappedTeapot).Code = 418 ∧
    (errorResponse fixCtx 0 wrappedTeapot).Error
      = "during call: A teapot has appeared" :=
  ⟨rfl, rfl, by decide, rfl, rfl⟩

/-- C3 (amended): the dispatcher's error envelope has
`code = HTTPStatus(err)` with 0 mapped to 500 and
`error = err.Error()`; a redirect envelope is built exactly when `err`
is directly a `*webutil.Redirect` (plain type assertion), and
`Token`/`ErrorInfo` are copied exactly when `err` is directly a
`*apirouter.Error` — no unwrapping is performed for either copy. -/
theorem c3_error_envelope_amended (c : Context) (now : Rat) (e : GoError) :
    (∀ url rcode, e = .redirect url rcode →
        (errorResponse c now e).Result = "redirect" ∧
        (errorResponse c now e).RedirectURL = url ∧
        (errorResponse c now e).RedirectCode = rcode ∧
        (errorResponse c now e).Code = 0 ∧
        (errorResponse c now e).Error = "" ∧
        (errorResponse c now e).RequestId = c.data.reqid) ∧
    ((∀ url rcode, e ≠ .redirect url rcode) →
        (errorResponse c now e).Result = "error" ∧
        (errorResponse c now e).Error = errMessage e ∧
        (errorResponse c now e).Code =
          (if httpStatus e = 0 then 500 else httpStatus e) ∧
        (errorResponse c now e).RequestId = c.data.reqid ∧
        (errorResponse c now e).Token =
          (match e with
           | .apiError _ _ tok _ _ => tok
           | _ => "") ∧
        (errorResponse c now e).ErrorInfo =
          (match e with
           | .apiError _ _ _ info _ => info
           | _ => none)) := by
  constructor
  · rintro url rcode rfl
    exact ⟨rfl, rfl, rfl, rfl, rfl, rfl⟩
  · intro hne
    cases e <;>
      first
        | exact absurd rfl (hne _ _)
        | exact ⟨rfl, rfl, rfl, rfl, rfl, rfl⟩

/-- C3 witness: the amended statement at the direct `*Error`
`ErrTeapot` — token, info and code all surface in the envelope. -/
theorem c3_error_envelope_amended_witness :
    (errorResponse fixCtx 1 errTeapot).Result = "error" ∧
    (errorResponse fixCtx 1 errTeapot).Error = "A teapot has appeared" ∧
    (errorResponse fixCtx 1 errTeapot).Code = 418 ∧
    (errorResponse fixCtx 1 errTeapot).RequestId = "rid-0" ∧
    (errorResponse fixCtx 1 errTeapot).Token = "error_teapot" ∧
    (errorResponse fixCtx 1 errTeapot).ErrorInfo = none :=
  (c3_error_envelope_amended fixCtx 1 errTeapot).2
    (by intro url rcode h; simp [errTeapot] at h)

/-- C9: the envelope map starts from the context's `extra` mapping and
overlays the standard fields in order — `result`, `error`+`code` when
an error message is present, `time`, `data`, `request_id`,
`redirect_url` (+`redirect_code` when non-zero) when a redirect is
present, non-empty `token`, non-nil `error_info`, non-nil `query_id` —
each overwriting any identically named `extra` entry, while `result`,
`time`, `data` and `request_id` are present in every envelope and all
other keys fall through to `extra`. -/
theorem c9_envelope_overlay (r : Response) (k : String) :
    getResponseData r "result" = some (.vstr r.Result) ∧
    getResponseData r "time" = some (.vrat r.Time) ∧
    getResponseData r "data" = some r.Data ∧
    getResponseData r "request_id" = some (.vstr r.RequestId) ∧
    (r.Error ≠ "" →
        getResponseData r "error" = some (.vstr r.Error) ∧
        getResponseData r "code" = some (.vint r.Code)) ∧
    (r.Error = "" →
        getResponseData r "error" = r.ctx.data.extra.lookup "error" ∧
        getResponseData r "code" = r.ctx.data.extra.lookup "code") ∧
    (r.RedirectURL ≠ "" →
        getResponseData r "redirect_url" = some (.vstr r.RedirectURL)) ∧
    (r.RedirectURL = "" →
        getResponseData r "redirect_url" = r.ctx.data.extra.lookup "redirect_url" ∧
        getResponseData r "redirect_code" = r.ctx.data.extra.lookup "redirect_code") ∧
    (r.RedirectURL ≠ "" → r.RedirectCode ≠ 0 →
        getResponseData r "redirect_code" = some (.vint r.RedirectCode)) ∧
    (r.Token ≠ "" → getResponseData r "token" = some (.vstr r.Token)) ∧
    (r.Token = "" → getResponseData r "token" = r.ctx.data.extra.lookup "token") ∧
    (∀ i, r.ErrorInfo = some i → getResponseData r "error_info" = some i) ∧
    (r.ErrorInfo = none →
        getResponseData r "error_info" = r.ctx.data.extra.lookup "error_info") ∧
    (∀ q, r.QueryId = some q → getResponseData r "query_id" = some q) ∧
    (r.QueryId = none →
        getResponseData r "query_id" = r.ctx.data.extra.lookup "query_id") ∧
    (k ∉ (["result", "error", "code", "time", "data", "request_id", "redirect_url",
           "redirect_code", "token", "error_info", "query_id"] : List String) →
        getResponseData r k = r.ctx.data.extra.lookup k) := by
  have hother : k ∉ (["result", "error", "code", "time", "data", "request_id",
      "redirect_url", "redirect_code", "token", "error_info",
      "query_id"] : List String) →
      getResponseData r k = r.ctx.data.extra.lookup k := by
    intro hk
    simp only [List.mem_cons, List.not_mem_nil, or_false, not_or] at hk
    obtain ⟨h1, h2, h3, h4, h5, h6, h7, h8, h9, h10, h11⟩ := hk
    rcases hq : r.QueryId with _ | q <;> rcases hi : r.ErrorInfo with _ | i <;>
      by_cases hE : r.Error = "" <;> by_cases hT : r.Token = "" <;>
      by_cases hU : r.RedirectURL = "" <;> by_cases hC : r.RedirectCode = 0 <;>
      simp [getResponseData, mset, hq, hi, hE, hT, hU, hC,
        h1, h2, h3, h4, h5, h6, h7, h8, h9, h10, h11]
  refine ⟨?_, ?_, ?_, ?_, ?_, ?_, ?_, ?_, ?_, ?_, ?_, ?_, ?_, ?_, ?_, hother⟩
  all_goals
    rcases hq : r.QueryId with _ | q <;> rcases hi : r.ErrorInfo with _ | i <;>
      by_cases hE : r.Error = "" <;> by_cases hT : r.Token = "" <;>
      by_cases hU : r.RedirectURL = "" <;> by_cases hC : r.RedirectCode = 0 <;>
      simp [getResponseData, mset, hq, hi, hE, hT, hU, hC]

/-- C9 witness: the overlay at a concrete error envelope over an
`extra` map that pre-sets `paging` and tries to shadow `error` — the
standard field wins, the custom key is kept. -/
theorem c9_envelope_overlay_witness :
    getResponseData fixResponse "result" = some (.vstr "error") ∧
    getResponseData fixResponse "error" = some (.vstr "boom") ∧
    getResponseData fixResponse "code" = some (.vint 418) ∧
    getResponseData fixResponse "token" = some (.vstr "error_teapot") ∧
    getResponseData fixResponse "paging" = some (.vstr "extra-kept") := by
  have h := c9_envelope_overlay fixResponse "paging"
  exact ⟨h.1, (h.2.2.2.2.1 (by decide)).1, (h.2.2.2.2.1 (by decide)).2,
    h.2.2.2.2.2.2.2.2.2.1 (by decide),
    h.2.2.2.2.2.2.2.2.2.2.2.2.2.2.2 (by decide)⟩

end ApiRouter

namespace ApiRouter

/-- The media-type switch of `SetHttp` can fail with a size, decode or
boundary error, but never with `ErrLengthRequired`. -/
theorem setHttpBody_not_lengthRequired (c1 : Context) (d1 : CtxData)
    (rq : HttpRequest) (ct : String) (bnd : Option String) :
    (setHttpBody c1 d1 rq ct bnd).2 ≠ some errLengthRequired := by
  unfold setHttpBody underscoreOverride
  repeat' split
  all_goals simp [errRequestEntityTooLarge, errLengthRequired]

/-- Outside the zero-`ContentLength` case, the body arm of `SetHttp`
never fails with `ErrLengthRequired`. -/
theorem setHttpBodyVerb_not_lengthRequired (c1 : Context) (d1 : CtxData)
    (rq : HttpRequest) (ct : String) (bnd : Option String)
    (hct : rq.ctParse = .ok (ct, bnd)) (h0 : rq.contentLength ≠ 0) :
    (setHttpBodyVerb c1 d1 rq).2 ≠ some errLengthRequired := by
  unfold setHttpBodyVerb
  rw [hct]
  simp only [h0, if_false]
  exact setHttpBody_not_lengthRequired c1 d1 rq ct bnd

/-- C4 counterexample: a chunked POST — no `Content-Length` header,
`ContentLength = -1` — with a well-formed JSON body is not rejected:
the `ErrLengthRequired` branch of `SetHttp` is guarded by
`req.ContentLength == 0`, so the body is parsed normally, refuting the
claim that every request without a `Content-Length` header fails with
`error_length_required`. -/
theorem c4_chunked_without_header_not_rejected :
    chunkedReq.method = "POST" ∧
    chunkedReq.ctParse = .ok ("application/json", none) ∧
    chunkedReq.hasCLHeader = false ∧
    chunkedReq.contentLength = -1 ∧
    (setHttp fixCtx chunkedReq).2 = none ∧
    (setHttp fixCtx chunkedReq).1.data.params = some [("a", .vstr "b")] :=
  ⟨rfl, rfl, rfl, rfl, rfl, rfl⟩

/-- C4 (amended): for a body-bearing verb with a parsed `Content-Type`,
`SetHttp` fails with `ErrLengthRequired` exactly when the request
reports `ContentLength` zero *and* carries no `Content-Length` header;
with the header present and zero length it returns no error and leaves
`params` absent; a request without the header but with unknown length
(`ContentLength = -1`, e.g. chunked transfer encoding) proceeds to
body parsing. -/
theorem c4_length_required_amended (c : Context) (rq : HttpRequest)
    (hm : rq.method = "POST" ∨ rq.method = "PATCH" ∨ rq.method = "PUT")
    (hp : c.data.params = none)
    (ct : String) (bnd : Option String) (hct : rq.ctParse = .ok (ct, bnd)) :
    (rq.contentLength = 0 → rq.hasCLHeader = false →
        (setHttp c rq).2 = some errLengthRequired) ∧
    (rq.contentLength = 0 → rq.hasCLHeader = true →
        (setHttp c rq).2 = none ∧ (setHttp c rq).1.data.params = none) ∧
    (rq.contentLength ≠ 0 →
        (setHttp c rq).2 ≠ some errLengthRequired) := by
  refine ⟨?_, ?_, ?_⟩
  · intro h0 hh
    simp [setHttp, hp, hm, setHttpBodyVerb, hct, h0, hh]
  · intro h0 hh
    constructor
    · simp [setHttp, hp, hm, setHttpBodyVerb, hct, h0, hh]
    · simp [setHttp, hp, hm, setHttpBodyVerb, hct, h0, hh, Context.data_withData]
  · intro h0
    simp only [setHttp, hp, hm, Option.isSome_none, Bool.false_eq_true,
      if_false, if_true]
    exact setHttpBodyVerb_not_lengthRequired _ _ rq ct bnd hct h0

/-- C4 witness: the amended statement at the concrete requests — a POST
with no `Content-Length` header and no body fails 411; a POST with
`Content-Length: 0` keeps `params` absent with no error; the chunked
request is not rejected with 411. -/
theorem c4_length_required_amended_witness :
    (setHttp fixCtx noHeaderReq).2 = some errLengthRequired ∧
    (setHttp fixCtx zeroLenReq).2 = none ∧
    (setHttp fixCtx zeroLenReq).1.data.params = none ∧
    (setHttp fixCtx chunkedReq).2 ≠ some errLengthRequired := by
  refine ⟨?_, ?_, ?_, ?_⟩
  · exact (c4_length_required_amended fixCtx noHeaderReq (Or.inl rfl) rfl
      "application/json" none rfl).1 rfl rfl
  · exact ((c4_length_required_amended fixCtx zeroLenReq (Or.inl rfl) rfl
      "application/json" none rfl).2.1 rfl rfl).1
  · exact ((c4_length_required_amended fixCtx zeroLenReq (Or.inl rfl) rfl
      "application/json" none rfl).2.1 rfl rfl).2
  · exact (c4_length_required_amended fixCtx chunkedReq (Or.inl rfl) rfl
      "application/json" none rfl).2.2 (by decide)

end ApiRouter

namespace ApiRouter

/-- C5 counterexample: a JSON POST whose `ContentLength` is
`10 MiB + 1` bytes — one byte over the claim's 10 MiB limit — parses
successfully, because the constant `MaxJsonDataLength` is
`10<<20 + 1` and the rejection test is a strict `>`; only
`10 MiB + 2` is rejected with `error_request_entity_too_large`. -/
theorem c5_json_body_at_limit_plus_one_succeeds :
    atLimitReq.contentLength = 10 * 1048576 + 1 ∧
    (setHttp fixCtx atLimitReq).2 = none ∧
    (setHttp fixCtx atLimitReq).1.data.params = some [("a", .vstr "b")] ∧
    overLimitReq.contentLength = 10 * 1048576 + 2 ∧
    (setHttp fixCtx overLimitReq).2 = some errRequestEntityTooLarge :=
  ⟨rfl, rfl, rfl, rfl, rfl⟩

/-- C5 (amended): the effective ceilings are the constants themselves —
`MaxJsonDataLength = 10 MiB + 1` for `application/json` and
`application/cbor`, `MaxUrlEncodedDataLength = 1 MiB + 1` for
url-encoded, `MaxMultipartFormLength = 256 MiB + 1` for multipart: a
body of `ContentLength` up to and including the constant is parsed,
and one byte more fails with `error_request_entity_too_large`. -/
theorem c5_size_limits_amended (c : Context) (rq : HttpRequest)
    (hm : rq.method = "POST" ∨ rq.method = "PATCH" ∨ rq.method = "PUT")
    (hp : c.data.params = none)
    (ct : String) (bnd : Option String) (hct : rq.ctParse = .ok (ct, bnd))
    (h0 : rq.contentLength ≠ 0) :
    (ct = "application/json" →
        (rq.contentLength > maxJsonDataLength →
            (setHttp c rq).2 = some errRequestEntityTooLarge) ∧
        (¬ rq.contentLength > maxJsonDataLength →
            ∀ fs, rq.bodyJson = .ok (.jobj fs) →
              (setHttp c rq).2 = none ∧
              (setHttp c rq).1.data.params = some (decodeJFields true fs))) ∧
    (ct = "application/cbor" →
        (rq.contentLength > maxJsonDataLength →
            (setHttp c rq).2 = some errRequestEntityTooLarge) ∧
        (¬ rq.contentLength > maxJsonDataLength →
            ∀ ps, rq.bodyCbor = .ok ps →
              (setHttp c rq).2 = none ∧
              (setHttp c rq).1.data.params = some ps)) ∧
    (ct = "application/x-www-form-urlencoded" →
        (rq.contentLength > maxUrlEncodedDataLength →
            (setHttp c rq).2 = some errRequestEntityTooLarge) ∧
        (¬ rq.contentLength > maxUrlEncodedDataLength →
            rq.bodyPhp.lookup "_" = none →
              (setHttp c rq).2 = none ∧
              (setHttp c rq).1.data.params = some rq.bodyPhp)) ∧
    (ct = "multipart/form-data" →
        (rq.contentLength > maxMultipartFormLength →
            (setHttp c rq).2 = some errRequestEntityTooLarge) ∧
        (¬ rq.contentLength > maxMultipartFormLength →
            ∀ b ps, bnd = some b → rq.bodyParts = .ok ps →
              ps.lookup "_" = none →
                (setHttp c rq).2 = none ∧
                (setHttp c rq).1.data.params = some ps)) := by
  refine ⟨?_, ?_, ?_, ?_⟩ <;> rintro rfl
  · refine ⟨fun hgt => ?_, fun hle fs hfs => ⟨?_, ?_⟩⟩ <;>
      simp [setHttp, hp, hm, setHttpBodyVerb, setHttpBody, hct, h0,
        Context.data_withData, decodeJ, asMap, *]
  · refine ⟨fun hgt => ?_, fun hle ps hps => ⟨?_, ?_⟩⟩ <;>
      simp [setHttp, hp, hm, setHttpBodyVerb, setHttpBody, hct, h0,
        Context.data_withData, *]
  · refine ⟨fun hgt => ?_, fun hle hnone => ⟨?_, ?_⟩⟩ <;>
      simp [setHttp, hp, hm, setHttpBodyVerb, setHttpBody, underscoreOverride,
        hct, h0, Context.data_withData, *]
  · refine ⟨fun hgt => ?_, fun hle b ps hb hps hnone => ⟨?_, ?_⟩⟩ <;>
      simp [setHttp, hp, hm, setHttpBodyVerb, setHttpBody, underscoreOverride,
        hct, h0, Context.data_withData, *]

/-- C5 witness: the amended statement at the concrete boundary — a
JSON body of exactly `MaxJsonDataLength` bytes parses, one byte more
is rejected. -/
theorem c5_size_limits_amended_witness :
    (setHttp fixCtx atLimitReq).2 = none ∧
    (setHttp fixCtx atLimitReq).1.data.params
      = some (decodeJFields true [("a", Jdoc.jstr "b")]) ∧
    (setHttp fixCtx overLimitReq).2 = some errRequestEntityTooLarge := by
  have h1 := ((c5_size_limits_amended fixCtx atLimitReq (Or.inl rfl) rfl
    "application/json" none rfl (by decide)).1 rfl).2 (by decide)
    [("a", Jdoc.jstr "b")] rfl
  have h2 := ((c5_size_limits_amended fixCtx overLimitReq (Or.inl rfl) rfl
    "application/json" none rfl (by decide)).1 rfl).1 (by decide)
  exact ⟨h1.1, h1.2, h2⟩

end ApiRouter

namespace ApiRouter

/-- C7 counterexample: the JSON object document with the single numeric
field `a: 1`, sent directly as an `application/json` body, decodes with
`UseNumber` into `json.Number("1")`; the same document sent as the
string value of a url-encoded `_` field is decoded by
`pjson.Unmarshal` without `UseNumber` into `float64(1)` — the two
params mappings have the same key but values of different dynamic
types, refuting the claim's "including the representation of numeric
values". -/
theorem c7_underscore_numeric_representation_differs :
    numJsonReq.bodyJson = .ok numDoc ∧
    numFormReq.bodyPhp.lookup "_" = some (.vstr numDocText) ∧
    numFormReq.jsonParse numDocText = .ok numDoc ∧
    (setHttp fixCtx numJsonReq).1.data.params = some [("a", .vnumber "1")] ∧
    (setHttp fixCtx numFormReq).1.data.params = some [("a", .vfloat "1")] ∧
    ([("a", GoVal.vnumber "1")] : GoFields) ≠ [("a", GoVal.vfloat "1")] :=
  ⟨rfl, rfl, rfl, rfl, rfl, by simp⟩

/-- C7 (amended): for every JSON object document, the `_`-wrapped
url-encoded path and the direct JSON-body path produce params with the
same keys in the same order and structurally equal values up to
numeric representation: the JSON-body path decodes every number as a
`json.Number` preserving its literal (UseNumber), the `_` path as the
`float64` of the same literal, and replacing each `json.Number` by the
corresponding `float64` maps one params mapping onto the other. -/
theorem c7_underscore_json_equivalence_amended
    (cJ cF : Context) (rqJ rqF : HttpRequest)
    (d : List (String × Jdoc)) (txt : String)
    (hpJ : cJ.data.params = none) (hpF : cF.data.params = none)
    (hmJ : rqJ.method = "POST" ∨ rqJ.method = "PATCH" ∨ rqJ.method = "PUT")
    (hmF : rqF.method = "POST" ∨ rqF.method = "PATCH" ∨ rqF.method = "PUT")
    (bndJ bndF : Option String)
    (hctJ : rqJ.ctParse = .ok ("application/json", bndJ))
    (hctF : rqF.ctParse = .ok ("application/x-www-form-urlencoded", bndF))
    (h0J : rqJ.contentLength ≠ 0)
    (hleJ : ¬ rqJ.contentLength > maxJsonDataLength)
    (h0F : rqF.contentLength ≠ 0)
    (hleF : ¬ rqF.contentLength > maxUrlEncodedDataLength)
    (hbody : rqJ.bodyJson = .ok (.jobj d))
    (hform : rqF.bodyPhp.lookup "_" = some (.vstr txt))
    (hparse : rqF.jsonParse txt = .ok (.jobj d)) :
    (setHttp cJ rqJ).2 = none ∧
    (setHttp cJ rqJ).1.data.params = some (decodeJFields true d) ∧
    (setHttp cF rqF).2 = none ∧
    (setHttp cF rqF).1.data.params = some (decodeJFields false d) ∧
    GoFields.keys (decodeJFields true d) = GoFields.keys (decodeJFields false d) ∧
    numToFloatFields (decodeJFields true d) = decodeJFields false d := by
  refine ⟨?_, ?_, ?_, ?_, ?_, numToFloat_decodeJFields d⟩
  · simp [setHttp, hpJ, hmJ, setHttpBodyVerb, setHttpBody, hctJ, h0J, hleJ,
      hbody, decodeJ, asMap]
  · simp [setHttp, hpJ, hmJ, setHttpBodyVerb, setHttpBody, hctJ, h0J, hleJ,
      hbody, decodeJ, asMap, Context.data_withData]
  · simp [setHttp, hpF, hmF, setHttpBodyVerb, setHttpBody, underscoreOverride,
      hctF, h0F, hleF, hform, hparse, decodeJ, asMap]
  · simp [setHttp, hpF, hmF, setHttpBodyVerb, setHttpBody, underscoreOverride,
      hctF, h0F, hleF, hform, hparse, decodeJ, asMap, Context.data_withData]
  · rw [decodeJFields_keys, decodeJFields_keys]

/-- C7 witness: the amended statement at the concrete document with the
single numeric field `a: 1` and the two concrete requests. -/
theorem c7_underscore_json_equivalence_amended_witness :
    (setHttp fixCtx numJsonReq).2 = none ∧
    (setHttp fixCtx numJsonReq).1.data.params
      = some (decodeJFields true [("a", Jdoc.jnum "1")]) ∧
    (setHttp fixCtx numFormReq).2 = none ∧
    (setHttp fixCtx numFormReq).1.data.params
      = some (decodeJFields false [("a", Jdoc.jnum "1")]) ∧
    GoFields.keys (decodeJFields true [("a", Jdoc.jnum "1")])
      = GoFields.keys (decodeJFields false [("a", Jdoc.jnum "1")]) ∧
    numToFloatFields (decodeJFields true [("a", Jdoc.jnum "1")])
      = decodeJFields false [("a", Jdoc.jnum "1")] :=
  c7_underscore_json_equivalence_amended fixCtx fixCtx numJsonReq numFormReq
    [("a", Jdoc.jnum "1")] numDocText rfl rfl (Or.inl rfl) (Or.inl rfl)
    none none rfl rfl (by decide) (by decide) (by decide) (by decide)
    rfl rfl rfl

end ApiRouter

namespace ApiRouter

/-- C6 counterexample: `OPTIONS /User/42` advertises
`GET, HEAD, OPTIONS, PATCH, DELETE`, but the fetched object implements
neither `Updatable` nor `Deletable`, so the dispatcher answers actual
`PATCH` and `DELETE` requests at the same path with 405 — the
advertised set strictly over-approximates the verbs the dispatcher
accepts (the id fetch is skipped under OPTIONS and a sentinel is used,
exactly as the spec's design note records). -/
theorem c6_options_allow_methods_overapproximate :
    callRouter demoSpecial demoRoot "OPTIONS" "User/42" none
      = .error (.optionsResponder ["GET", "HEAD", "OPTIONS", "PATCH", "DELETE"]) ∧
    getAllowedMethods (some ["GET", "HEAD", "OPTIONS", "PATCH", "DELETE"])
      = "GET, HEAD, OPTIONS, PATCH, DELETE" ∧
    callRouter demoSpecial demoRoot "PATCH" "User/42" none
      = .error (.httpError 405) ∧
    callRouter demoSpecial demoRoot "DELETE" "User/42" none
      = .error (.httpError 405) :=
  ⟨rfl, rfl, rfl, rfl⟩

/-- C6 (amended): under OPTIONS the dispatcher returns fixed
per-endpoint-shape method lists, not capability- or existence-dependent
ones: `GET, POST, HEAD, OPTIONS` for any static-method suffix (whether
or not the method exists), `GET, HEAD, OPTIONS, PATCH, DELETE` for any
resolved instance (regardless of `Updatable`/`Deletable`), and
`GET, HEAD, OPTIONS, POST, DELETE` for a collection whose node has an
action set (`error_not_found` when it has none, regardless of which of
List/Create/Clear exist). -/
theorem c6_options_fixed_lists_amended (r : ObjNode) (obj : Option WalkObj)
    (m : String) (params : Params) (A : ActionSet) :
    routeAfterWalk true "OPTIONS" r obj (some m) params
      = .error (.optionsResponder ["GET", "POST", "HEAD", "OPTIONS"]) ∧
    (∀ o, routeAfterWalk true "OPTIONS" r (some o) none params
      = .error (.optionsResponder ["GET", "HEAD", "OPTIONS", "PATCH", "DELETE"])) ∧
    (r.action = some A → routeAfterWalk true "OPTIONS" r none none params
      = .error (.optionsResponder ["GET", "HEAD", "OPTIONS", "POST", "DELETE"])) ∧
    (r.action = none → routeAfterWalk true "OPTIONS" r none none params
      = .error errNotFound) := by
  refine ⟨rfl, fun o => rfl, ?_, ?_⟩
  · intro h
    simp [routeAfterWalk, h]
  · intro h
    simp [routeAfterWalk, h]

/-- C6 witness: the amended statement at the demo `User` node — the
static list even though no static method exists, and the collection
list even though `Create` and `Clear` are absent. -/
theorem c6_options_fixed_lists_amended_witness :
    routeAfterWalk true "OPTIONS" demoUserNode none (some "m") none
      = .error (.optionsResponder ["GET", "POST", "HEAD", "OPTIONS"]) ∧
    routeAfterWalk true "OPTIONS" demoUserNode none none none
      = .error (.optionsResponder ["GET", "HEAD", "OPTIONS", "POST", "DELETE"]) :=
  ⟨(c6_options_fixed_lists_amended demoUserNode none "m" none demoUserAction).1,
   (c6_options_fixed_lists_amended demoUserNode none "m" none
      demoUserAction).2.2.1 rfl⟩

/-- C8: a dispatch of the form `Class/id1/id2`, where the first id
resolved to an object, fails with `ErrNotFound` at the second id —
and does so for every fetch function agreeing on the first id, i.e.
without invoking `Fetch` on the second id. -/
theorem c8_double_id_not_found
    (special : Except GoError GoVal) (root cls : ObjNode) (p : String)
    (clsName id1 id2 verb : String) (params : Params) (A : ActionSet)
    (f : String → Except GoError (Option ApiObject)) (o : ApiObject)
    (hat : startsWithAt p = false)
    (hm : splitMethod p = (p, none))
    (hsegs : splitStr '/' p = [clsName, id1, id2])
    (hup : isUpperFirst clsName = true)
    (hchild : root.child clsName = some cls)
    (ha : cls.action = some A)
    (hf : A.fetch = some f)
    (h1up : isUpperFirst id1 = false) (h2up : isUpperFirst id2 = false)
    (h1ne : id1 ≠ "") (h2ne : id2 ≠ "")
    (hverb : verb ≠ "OPTIONS")
    (hfetch : f id1 = .ok (some o)) :
    callRouter special root verb p params = .error errNotFound := by
  have hcors : decide (verb = "OPTIONS") = false := decide_eq_false hverb
  have hwalk : walk false root none [clsName, id1, id2] = .error errNotFound := by
    rw [show walk false root none [clsName, id1, id2]
        = match walkSeg false root none clsName with
          | .error e => .error e
          | .ok (r2, obj2) => walk false r2 obj2 [id1, id2] from rfl]
    rw [walkSeg_class false root none clsName cls hup hchild]
    rw [show (match (Except.ok (cls, none) :
          Except GoError (ObjNode × Option WalkObj)) with
          | .error e => .error e
          | .ok (r2, obj2) => walk false r2 obj2 [id1, id2])
        = walk false cls none [id1, id2] from rfl]
    rw [show walk false cls none [id1, id2]
        = match walkSeg false cls none id1 with
          | .error e => .error e
          | .ok (r2, obj2) => walk false r2 obj2 [id2] from rfl]
    rw [walkSeg_fetch cls id1 A f h1ne h1up ha hf, hfetch]
    dsimp only [Option.map]
    rw [show walk false cls (some (.real o)) [id2]
        = match walkSeg false cls (some (.real o)) id2 with
          | .error e => .error e
          | .ok (r2, obj2) => walk false r2 obj2 [] from rfl]
    rw [walkSeg_objSet false cls (.real o) id2 h2ne (Or.inl h2up)]
  simp [callRouter, hat, hm, hsegs, hcors, hwalk]

/-- C8 witness: `GET User/42/43` on the demo registry, whose fetch
resolves id `42`, fails with `ErrNotFound`. -/
theorem c8_double_id_not_found_witness :
    callRouter demoSpecial demoRoot "GET" "User/42/43" none
      = .error errNotFound :=
  c8_double_id_not_found demoSpecial demoRoot demoUserNode "User/42/43"
    "User" "42" "43" "GET" none demoUserAction demoFetch
    { val := .vstr "user42", update := none, delete := none }
    rfl rfl rfl rfl rfl rfl rfl rfl rfl (by decide) (by decide) (by decide) rfl

end ApiRouter

namespace ApiRouter

/-- C10 counterexample: at `GET User/42/Extra` the segment `Extra` has
an uppercase first letter and no child in the registry, and the
current node `User` does have a `Fetch` action, yet the dispatcher
fails with `ErrNotFound` (the fall-through id attempt is rejected
because an object was already resolved) — refuting the claim's "fails
with error_not_found only when the current node has no Fetch
action". -/
theorem c10_unknown_class_segment_notfound_despite_fetch :
    isUpperFirst "Extra" = true ∧
    demoUserNode.child "Extra" = none ∧
    demoUserNode.action = some demoUserAction ∧
    demoUserAction.fetch = some demoFetch ∧
    callRouter demoSpecial demoRoot "GET" "User/42/Extra" none
      = .error errNotFound :=
  ⟨rfl, rfl, rfl, rfl, rfl⟩

/-- C10 (amended): an uppercase-initial segment with no matching child
is not rejected on that ground — it falls through to the id attempt:
`ErrNotFound` when an object is already resolved or when the node has
no `Fetch` action; otherwise, outside a CORS preflight, `Fetch` is
invoked with the segment as the id, while under OPTIONS the fetch is
skipped and a sentinel object installed. -/
theorem c10_uppercase_fallthrough_amended
    (corsReq : Bool) (r : ObjNode) (obj : Option WalkObj) (s : String)
    (A : ActionSet) (f : String → Except GoError (Option ApiObject))
    (hup : isUpperFirst s = true) (hchild : r.child s = none) :
    (∀ o, obj = some o → walkSeg corsReq r obj s = .error errNotFound) ∧
    (obj = none → r.action = none → walkSeg corsReq r obj s = .error errNotFound) ∧
    (obj = none → r.action = some A → A.fetch = none →
        walkSeg corsReq r obj s = .error errNotFound) ∧
    (obj = none → r.action = some A → A.fetch = some f → corsReq = false →
        walkSeg corsReq r obj s =
          (match f s with
           | .error e => .error e
           | .ok res => .ok (r, res.map WalkObj.real))) ∧
    (obj = none → r.action = some A → A.fetch = some f → corsReq = true →
        walkSeg corsReq r obj s = .ok (r, some .sentinel)) := by
  have hne := isUpperFirst_ne_empty hup
  refine ⟨?_, ?_, ?_, ?_, ?_⟩
  · rintro o rfl
    exact walkSeg_objSet corsReq r o s hne (Or.inr hchild)
  · rintro rfl ha
    simp [walkSeg, hne, hup, hchild, ha]
  · rintro rfl ha hf
    simp [walkSeg, hne, hup, hchild, ha, hf]
  · rintro rfl ha hf rfl
    simp [walkSeg, hne, hup, hchild, ha, hf]
  · rintro rfl ha hf rfl
    simp [walkSeg, hne, hup, hchild, ha, hf]

/-- C10 witness: the amended statement at the demo `User` node and the
unknown uppercase segment `Extra` — outside OPTIONS the fetch runs on
`Extra`, under OPTIONS the sentinel is installed. -/
theorem c10_uppercase_fallthrough_amended_witness :
    walkSeg false demoUserNode none "Extra" =
      (match demoFetch "Extra" with
       | .error e => .error e
       | .ok res => .ok (demoUserNode, res.map WalkObj.real)) ∧
    walkSeg true demoUserNode none "Extra" = .ok (demoUserNode, some .sentinel) :=
  ⟨(c10_uppercase_fallthrough_amended false demoUserNode none "Extra"
      demoUserAction demoFetch rfl rfl).2.2.2.1 rfl rfl rfl rfl,
   (c10_uppercase_fallthrough_amended true demoUserNode none "Extra"
      demoUserAction demoFetch rfl rfl).2.2.2.2 rfl rfl rfl rfl⟩

end ApiRouter
